import Mathlib

/-!
Verification development for the consoleText repository.

The core under study is the log-event enrichment utility `logger.text`
(src/src/lib/logger.ts, with a superseded revision in src/unnamed/part_007)
and the client-side filtering/statistics pass of the dashboard page
(src/src/app/page.tsx): `filteredLogs`, the 24h error count, and
`handleAcknowledgeAlert`.

The embedding is shallow: JavaScript runtime values occurring as entries of
the optional `data` payload are modelled by the tagged variant `JSValue`
(the source discriminates exactly these shapes with `typeof`/`instanceof`
checks); `JSON.stringify` is modelled by a fallible function into
`Except Unit String` that fails exactly on an unserializable object, and
every `try`/`catch` of the source appears as an explicit `match` on that
result.  The ambient OpenTelemetry span is an optional `SpanContext`; all
observable effects of one `logger.text` call (the record handed to the
telemetry sink, console writes, span status / exception / events) are
gathered in an `EmitOutput` value.  The external sink is a parameter of
type `SinkRecord → Except Unit Unit`; `emit` propagates its exception, as
the source does (the call at src/src/lib/logger.ts:84 is not guarded).
-/

/-- JavaScript runtime values appearing in `data` payload entries, as the
source discriminates them: `typeof v === 'object' && v !== null` and
`v instanceof Error` checks.  An `obj` carries its serializability (a cyclic
object makes `JSON.stringify` throw) and, when serializable, its JSON text.
An `err` carries the error's `message` and optional `stack`. -/
inductive JSValue where
  | str : String → JSValue
  | num : Int → JSValue
  | bool : Bool → JSValue
  | null : JSValue
  | err : String → Option String → JSValue
  | obj : Bool → String → JSValue
deriving DecidableEq, Repr

/-- A `data` argument: an ordered record of string keys to values
(JS `for...in` iterates insertion order for string keys). -/
abbrev Data := List (String × JSValue)

/-- A telemetry attribute map (OTel `Attributes`), built up by JS property
assignments; assignment of an existing key overwrites its value. -/
abbrev AttrMap := List (String × String)

/-- JS property assignment `m[k] = v`: drop any previous binding of `k`,
append the new one. -/
def setA (m : AttrMap) (k v : String) : AttrMap :=
  m.filter (fun p => p.1 != k) ++ [(k, v)]

/-- JS property read `m[k]`. -/
def lookupA : AttrMap → String → Option String
  | [], _ => none
  | (k, v) :: m, k' => if k' == k then some v else lookupA m k'

/-- JS property read `d[k]` on a `data` record. -/
def lookupD : Data → String → Option JSValue
  | [], _ => none
  | (k, v) :: l, k' => if k' == k then some v else lookupD l k'

/-- Is the value an `Error` instance (`v instanceof Error`)? -/
def isErrV : JSValue → Bool
  | .err _ _ => true
  | _ => false

/-- JS string coercion `String(v)` for the modelled value shapes. -/
def toStr : JSValue → String
  | .str s => s
  | .num n => toString n
  | .bool b => if b then "true" else "false"
  | .null => "null"
  | .err em _ => "Error: " ++ em
  | .obj _ _ => "[object Object]"

/-- `JSON.stringify` on a single value.  Throws (`.error ()`) exactly on an
unserializable object; an `Error` instance serializes to an empty JSON
object (no enumerable own properties). -/
def jsonValue : JSValue → Except Unit String
  | .str s => .ok ("\"" ++ s ++ "\"")
  | .num n => .ok (toString n)
  | .bool b => .ok (if b then "true" else "false")
  | .null => .ok "null"
  | .err _ _ => .ok "\x7b\x7d"
  | .obj ser s => if ser then .ok s else .error ()

/-- `JSON.stringify` applied to each entry of a record, in order; the first
unserializable entry makes the whole call throw. -/
def jsonEntries : Data → Except Unit (List String)
  | [] => .ok []
  | (k, v) :: l => do
      let s ← jsonValue v
      let rest ← jsonEntries l
      .ok (("\"" ++ k ++ "\":" ++ s) :: rest)

/-- `JSON.stringify(data)` on a whole `data` record. -/
def jsonRecord (d : Data) : Except Unit String := do
  let es ← jsonEntries d
  .ok ("\x7b" ++ String.intercalate "," es ++ "\x7d")

/-- JS `err.stack || err.message`: the stack unless it is absent or the
empty string (both falsy), in which case the message. -/
def stackOrMsg (em : String) (st : Option String) : String :=
  match st with
  | some s => if s == "" then em else s
  | none => em

/-- Attribute shaping of one `data` entry, src/src/lib/logger.ts:35-46:
nested non-Error objects are `JSON.stringify`ed with the failure caught and
replaced by the placeholder; `Error` values contribute `stack || message`
under the original key; anything else is `String(v)`. -/
def shapeEntry (m : AttrMap) (k : String) (v : JSValue) : AttrMap :=
  match v with
  | .obj ser s =>
      match jsonValue (.obj ser s) with
      | .ok j => setA m k j
      | .error _ => setA m k "[Unserializable Object]"
  | .err em st => setA m k (stackOrMsg em st)
  | v' => setA m k (toStr v')

/-- The `for (const key in data)` shaping loop, src/src/lib/logger.ts:32-49
(absent `data` contributes no attributes). -/
def shapeAttributes (d : Option Data) : AttrMap :=
  match d with
  | none => []
  | some l => l.foldl (fun m p => shapeEntry m p.1 p.2) []

/-- Attribute shaping of one entry in the superseded revision
src/unnamed/part_007:34-46: an `Error` value contributes `error.message`
and `error.stack` attributes plus the rendering `Error: <message>` under
the original key (an absent stack is the JS `undefined` value, rendered
here as the literal "undefined"); the other branches agree with the
current revision. -/
def shapeEntryV7 (m : AttrMap) (k : String) (v : JSValue) : AttrMap :=
  match v with
  | .err em st =>
      setA (setA (setA m "error.message" em) "error.stack"
        (match st with | some s => s | none => "undefined")) k ("Error: " ++ em)
  | .obj ser s =>
      match jsonValue (.obj ser s) with
      | .ok j => setA m k j
      | .error _ => setA m k "[Unserializable Object]"
  | v' => setA m k (toStr v')

/-- The shaping loop of the superseded revision src/unnamed/part_007:31-49. -/
def shapeAttributesV7 (d : Option Data) : AttrMap :=
  match d with
  | none => []
  | some l => l.foldl (fun m p => shapeEntryV7 m p.1 p.2) []

/-- Ambient span correlation identifiers (`span.spanContext()`). -/
structure SpanContext where
  traceId : String
  spanId : String
deriving DecidableEq, Repr

/-- The all-zero sentinel trace id of an unset span context. -/
def zeroTraceId : String := "00000000000000000000000000000000"

/-- Correlation injection, src/src/lib/logger.ts:51-54: when a span is
active and its trace id is truthy and not the all-zero sentinel, write the
`trace_id` and `span_id` attributes. -/
def injectCorrelation (m : AttrMap) (spanCtx : Option SpanContext) : AttrMap :=
  match spanCtx with
  | some sc =>
      if sc.traceId != "" && sc.traceId != zeroTraceId then
        setA (setA m "trace_id" sc.traceId) "span_id" sc.spanId
      else m
  | none => m

/-- The complete `logAttributes` value, src/src/lib/logger.ts:31-55: shaped
`data` entries, then correlation ids, then `log.level` (later assignments
overwrite earlier ones). -/
def logAttributesOf (spanCtx : Option SpanContext) (level : String)
    (d : Option Data) : AttrMap :=
  setA (injectCorrelation (shapeAttributes d) spanCtx) "log.level" level

/-- OTel severity enumeration values used by the source. -/
inductive SeverityNumber where
  | ERROR
  | WARN
  | INFO
  | DEBUG
deriving DecidableEq, Repr

/-- The severity switch, src/src/lib/logger.ts:57-76, with its default
branch mapping anything else to INFO. -/
def severityNumber (level : String) : SeverityNumber :=
  if level == "error" then .ERROR
  else if level == "warn" then .WARN
  else if level == "info" then .INFO
  else if level == "delivered" then .INFO
  else if level == "debug" then .DEBUG
  else if level == "blocked" then .DEBUG
  else .INFO

/-- The record handed to the external telemetry sink,
src/src/lib/logger.ts:78-83 (the creation instant is modelled by its ISO
rendering `ts`). -/
structure SinkRecord where
  body : String
  severityNumber : SeverityNumber
  attributes : AttrMap
  timestamp : String
deriving DecidableEq, Repr

/-- Construction of the sink record for one call. -/
def sinkRecordOf (spanCtx : Option SpanContext) (ts level msg : String)
    (d : Option Data) : SinkRecord :=
  { body := msg
    severityNumber := severityNumber level
    attributes := logAttributesOf spanCtx level d
    timestamp := ts }

/-- The `data`-dependent tail of the single console string,
src/src/lib/logger.ts:89-106.  The whole if/else sits in one `try`; when
`JSON.stringify` of the non-error rest throws, the stack part already
appended is kept and ` [Unserializable data]` follows it, exactly as the
source's `catch` appends to the partially built message. -/
def consoleTail (d : Data) : String :=
  match lookupD d "error" with
  | some (.err em st) =>
      let base := " " ++ stackOrMsg em st
      let otherData := d.filter (fun p => p.1 != "error")
      if otherData.isEmpty then base
      else
        match jsonRecord otherData with
        | .ok j => base ++ " " ++ j
        | .error _ => base ++ " [Unserializable data]"
  | _ =>
      match jsonRecord d with
      | .ok j => " " ++ j
      | .error _ => " [Unserializable data]"

/-- The single formatted console string, src/src/lib/logger.ts:88-106. -/
def finalConsoleMessage (ts level msg : String) (d : Option Data) : String :=
  let base := "[" ++ ts ++ "] [" ++ level.toUpper ++ "] " ++ msg
  match d with
  | some l => if l.isEmpty then base else base ++ consoleTail l
  | none => base

/-- The four console channels plus `console.log` (used by the default
switch branch and the Datadog simulation notice). -/
inductive Channel where
  | error
  | warn
  | info
  | debug
  | log
deriving DecidableEq, Repr

/-- OTel span status codes. -/
inductive SpanStatusCode where
  | UNSET
  | OK
  | ERROR
deriving DecidableEq, Repr

/-- Argument of `span.setStatus`. -/
structure SpanStatus where
  code : SpanStatusCode
  message : String
deriving DecidableEq, Repr

/-- What `span.recordException` receives: the exception's message and
stack, the `details` string attached to a synthesized error (absent on a
reused caller error), and the exception attributes. -/
structure RecordedException where
  excMessage : String
  excStack : Option String
  details : Option String
  excAttrs : AttrMap
deriving DecidableEq, Repr

/-- One iteration of the exception-attribute loop,
src/src/lib/logger.ts:117-121: an entry whose key is not `error` and whose
value is not an `Error` is stringified under the prefixed key. -/
def excStep (m : AttrMap) (p : String × JSValue) : AttrMap :=
  if p.1 != "error" && !(isErrV p.2) then
    setA m ("log.data." ++ p.1) (toStr p.2)
  else m

/-- The exception attributes built at src/src/lib/logger.ts:116-122. -/
def exceptionAttrsOf (d : Option Data) : AttrMap :=
  match d with
  | none => []
  | some l => l.foldl excStep []

/-- `JSON.stringify(data)` with its `catch`, attached as `.details` to a
synthesized error when `data` is present and non-empty,
src/src/lib/logger.ts:129-135. -/
def synthDetails (d : Option Data) : Option String :=
  match d with
  | none => none
  | some l =>
      if l.isEmpty then none
      else
        match jsonRecord l with
        | .ok j => some j
        | .error _ => some "[Unserializable data]"

/-- The guard `data && data.error instanceof Error` of
src/src/lib/logger.ts:124: the message and stack of the value under the
`error` key, when that value is an `Error` instance. -/
def errorOfData (d : Option Data) : Option (String × Option String) :=
  match d with
  | some l =>
      match lookupD l "error" with
      | some (.err em st) => some (em, st)
      | _ => none
  | none => none

/-- The exception recorded on the span at error level,
src/src/lib/logger.ts:113-138: reuse `data.error` when it is an `Error`
instance, otherwise synthesize `new Error(message)` with stringified
`data` as details. -/
def exceptionFor (msg : String) (d : Option Data) : RecordedException :=
  match errorOfData d with
  | some (em, st) =>
      { excMessage := em, excStack := st, details := none
        excAttrs := exceptionAttrsOf d }
  | none =>
      { excMessage := msg, excStack := none, details := synthDetails d
        excAttrs := exceptionAttrsOf d }

/-- All observable effects of one `logger.text` call. -/
structure EmitOutput where
  sinkRecord : SinkRecord
  consoleWrites : List (Channel × String)
  statusSet : Option SpanStatus
  exceptionRecorded : Option RecordedException
  eventsAdded : List (String × AttrMap)
deriving DecidableEq, Repr

/-- The object-literal merge `\x7b 'log.level': x, ...logAttributes \x7d`:
start from the initial bindings, then assign every entry of the spread in
order. -/
def mergeSpread (init ext : AttrMap) : AttrMap :=
  ext.foldl (fun m p => setA m p.1 p.2) init

/-- The fixed notice written by `console.log` when an error is emitted
without a Datadog API key in a browser, src/src/lib/logger.ts:173-175. -/
def datadogSimNotice : String :=
  "%c[[SIMULATING ERROR FORWARDING TO DATADOG/PAGERDUTY - DATADOG_API_KEY not set]]"

/-- The console/span switch of src/src/lib/logger.ts:108-175, as the
observable output of one call.  `datadogKeySet` models `DATADOG_API_KEY_SET`
and `inBrowser` models `typeof window !== 'undefined'`. -/
def emitOutput (spanCtx : Option SpanContext) (datadogKeySet inBrowser : Bool)
    (ts level msg : String) (d : Option Data) : EmitOutput :=
  let record := sinkRecordOf spanCtx ts level msg d
  let fcm := finalConsoleMessage ts level msg d
  let logAttributes := logAttributesOf spanCtx level d
  let base : EmitOutput :=
    if level == "error" then
      { sinkRecord := record
        consoleWrites := [(Channel.error, fcm)]
        statusSet :=
          if spanCtx.isSome then
            some { code := SpanStatusCode.ERROR, message := msg }
          else none
        exceptionRecorded :=
          if spanCtx.isSome then some (exceptionFor msg d) else none
        eventsAdded := [] }
    else if level == "warn" then
      { sinkRecord := record
        consoleWrites := [(Channel.warn, fcm)]
        statusSet := none
        exceptionRecorded := none
        eventsAdded :=
          if spanCtx.isSome then
            [("WARN: " ++ msg, mergeSpread [("log.level", "warn")] logAttributes)]
          else [] }
    else if level == "info" || level == "delivered" then
      { sinkRecord := record
        consoleWrites := [(Channel.info, fcm)]
        statusSet := none
        exceptionRecorded := none
        eventsAdded :=
          if spanCtx.isSome then
            [("INFO: " ++ msg, mergeSpread [("log.level", level)] logAttributes)]
          else [] }
    else if level == "debug" || level == "blocked" then
      { sinkRecord := record
        consoleWrites := [(Channel.debug, fcm)]
        statusSet := none
        exceptionRecorded := none
        eventsAdded :=
          if spanCtx.isSome then
            [("DEBUG: " ++ msg, mergeSpread [("log.level", level)] logAttributes)]
          else [] }
    else
      { sinkRecord := record
        consoleWrites := [(Channel.log, fcm)]
        statusSet := none
        exceptionRecorded := none
        eventsAdded :=
          if spanCtx.isSome then
            [(msg, mergeSpread [("log.level", level)] logAttributes)]
          else [] }
  if level == "error" && !datadogKeySet && inBrowser then
    { base with consoleWrites := base.consoleWrites ++ [(Channel.log, datadogSimNotice)] }
  else base

/-- One complete `logger.text` call.  The sink is an external collaborator;
its hand-off (src/src/lib/logger.ts:84) is not guarded by any handler, so
an exception of the sink propagates and nothing after it runs.  No
observable effect of the call precedes the hand-off. -/
def emit (sink : SinkRecord → Except Unit Unit) (spanCtx : Option SpanContext)
    (datadogKeySet inBrowser : Bool) (ts level msg : String)
    (d : Option Data) : Except Unit EmitOutput :=
  match sink (sinkRecordOf spanCtx ts level msg d) with
  | .error e => .error e
  | .ok _ => .ok (emitOutput spanCtx datadogKeySet inBrowser ts level msg d)

/-! ## The dashboard filtering/statistics pass (src/src/app/page.tsx) -/

/-- The closed level enumeration of `LogEntry` (src/unnamed/part_009:41). -/
inductive Level where
  | error
  | warn
  | info
  | debug
  | delivered
  | blocked
deriving DecidableEq, Repr

/-- A dashboard log record (src/unnamed/part_009:36-43).  The timestamp is
the epoch-millisecond value `timestamp.getTime()`; the optional structured
`details` payload plays no role in filtering and is elided. -/
structure LogEntry where
  id : String
  timestamp : Int
  message : String
  source : Option String
  level : Level
deriving DecidableEq, Repr

/-- Character-wise lowercasing, modelling JS `String.prototype.toLowerCase`
on the ASCII range the mock data uses. -/
def lowerStr (s : String) : String :=
  String.mk (s.data.map Char.toLower)

/-- Does the needle occur as a leading run of the haystack? -/
def isPrefixCharL : List Char → List Char → Bool
  | [], _ => true
  | _ :: _, [] => false
  | c :: cs, d :: ds => c == d && isPrefixCharL cs ds

/-- Substring occurrence on character lists (JS `String.prototype.includes`). -/
def containsSubL : List Char → List Char → Bool
  | [], needle => needle.isEmpty
  | c :: t, needle => isPrefixCharL needle (c :: t) || containsSubL t needle

/-- JS `hay.includes(needle)`. -/
def strIncludes (hay needle : String) : Bool :=
  containsSubL hay.data needle.data

/-- JS `hay.toLowerCase().includes(needle.toLowerCase())`. -/
def ciIncludes (hay needle : String) : Bool :=
  strIncludes (lowerStr hay) (lowerStr needle)

/-- The per-record predicate of `filteredLogs`, src/src/app/page.tsx:279-285.
An absent source is JS `undefined` and an empty-string source is falsy, so
both make the source conjunct fail. -/
def logPasses (log : LogEntry) (searchTerm : String)
    (activeLevels : List Level) : Bool :=
  let searchTermMatch :=
    lowerStr searchTerm == "" ||
    ciIncludes log.message searchTerm ||
    (match log.source with
     | some s => s != "" && ciIncludes s searchTerm
     | none => false)
  let levelMatch := activeLevels.contains log.level
  searchTermMatch && levelMatch

/-- `filteredLogs`, src/src/app/page.tsx:279-285. -/
def filteredLogs (allLogs : List LogEntry) (searchTerm : String)
    (activeLevels : List Level) : List LogEntry :=
  allLogs.filter (fun log => logPasses log searchTerm activeLevels)

/-- The spec's own wording of the filter predicate (section 4.2): the level
is in the allowed set, and the term is empty or the message or the present
source case-insensitively contains it. -/
def specFilterPass (log : LogEntry) (searchTerm : String)
    (allowedLevels : List Level) : Bool :=
  allowedLevels.contains log.level &&
    (searchTerm == "" ||
     ciIncludes log.message searchTerm ||
     (match log.source with
      | some s => ciIncludes s searchTerm
      | none => false))

/-- The level set with every level active, the initial `activeLevels` of
src/src/app/page.tsx:226. -/
def allLevels : List Level :=
  [Level.error, Level.warn, Level.info, Level.delivered, Level.blocked, Level.debug]

/-- The trailing-window count of src/src/app/page.tsx:240, generalized over
level, window and reference time exactly as the spec's `countRecent`
operation: the source counts records with
`level === l && (now - timestamp.getTime()) < windowMs`. -/
def countRecent (records : List LogEntry) (level : Level) (windowMs now : Int) :
    Nat :=
  (records.filter (fun log => log.level == level && now - log.timestamp < windowMs)).length

/-- Modelled from the spec's wording of `countRecent` (section 4.2): count
the records of the given level whose timestamp lies in the closed interval
from `now - windowMs` to `now`.  Stated only to compare with the source's
`countRecent`. -/
def specCountRecent (records : List LogEntry) (level : Level)
    (windowMs now : Int) : Nat :=
  (records.filter
    (fun log => log.level == level &&
      now - windowMs ≤ log.timestamp && log.timestamp ≤ now)).length

/-- An alert of the incident timeline (src/unnamed/part_009:54-63). -/
structure Alert where
  id : String
  timestamp : Int
  severity : String
  title : String
  description : String
  source : String
  acknowledged : Bool
  relatedLogsQuery : Option String
deriving DecidableEq, Repr

/-- The acknowledge update of `handleAcknowledgeAlert`,
src/src/app/page.tsx:296: map over the collection, replacing the matching
alert by a copy with `acknowledged` set, leaving the rest untouched. -/
def acknowledgeAlerts (alerts : List Alert) (alertId : String) : List Alert :=
  alerts.map (fun a => if a.id == alertId then { a with acknowledged := true } else a)

/-! ## Infrastructure lemmas -/

theorem lookupA_append (l m : AttrMap) (k : String) :
    lookupA (l ++ m) k =
      match lookupA l k with
      | some v => some v
      | none => lookupA m k := by
  induction l with
  | nil => rfl
  | cons p l ih =>
    obtain ⟨a, b⟩ := p
    by_cases h : k = a
    · simp [lookupA, h]
    · simp [lookupA, h, ih]

theorem lookupA_filter_self (l : AttrMap) (k : String) :
    lookupA (l.filter (fun p => p.1 != k)) k = none := by
  induction l with
  | nil => rfl
  | cons p l ih =>
    obtain ⟨a, b⟩ := p
    by_cases h : a = k
    · simp [List.filter_cons, h, ih]
    · have hb : ((a, b).1 != k) = true := by simp [h]
      simp only [List.filter_cons, hb, if_true]
      simp [lookupA, Ne.symm h, ih]

theorem lookupA_filter_ne (l : AttrMap) (k k' : String) (h : k' ≠ k) :
    lookupA (l.filter (fun p => p.1 != k)) k' = lookupA l k' := by
  induction l with
  | nil => rfl
  | cons p l ih =>
    obtain ⟨a, b⟩ := p
    by_cases ha : a = k
    · subst ha
      simp [List.filter_cons, lookupA, ih, h]
    · have hb : ((a, b).1 != k) = true := by simp [ha]
      simp only [List.filter_cons, hb, if_true]
      simp [lookupA, ih]

theorem lookupA_setA_self (m : AttrMap) (k v : String) :
    lookupA (setA m k v) k = some v := by
  unfold setA
  rw [lookupA_append, lookupA_filter_self]
  simp [lookupA]

theorem lookupA_setA_ne (m : AttrMap) (k v k' : String) (h : k' ≠ k) :
    lookupA (setA m k v) k' = lookupA m k' := by
  unfold setA
  rw [lookupA_append, lookupA_filter_ne m k k' h]
  cases hl : lookupA m k' <;> simp [lookupA, h]


theorem lowerStr_eq_empty_iff (s : String) : lowerStr s = "" ↔ s = "" := by
  constructor
  · intro h
    have hd : (lowerStr s).data = [] := by rw [h]
    have : s.data.map Char.toLower = [] := hd
    have : s.data = [] := List.map_eq_nil_iff.mp this
    exact String.ext this
  · intro h
    subst h
    rfl

theorem ciIncludes_empty_left (t : String) (h : t ≠ "") :
    ciIncludes "" t = false := by
  have hd : t.data ≠ [] := by
    intro hh
    exact h (String.ext hh)
  simp [ciIncludes, strIncludes, lowerStr, containsSubL, List.isEmpty_iff,
    List.map_eq_nil_iff, hd]


/-- C1: for every level (the whole six-value enumeration and beyond) and
every data argument, including unserializable (cyclic) values, a
`logger.text` call completes normally when the telemetry sink does:
serialization failures in attribute shaping and console formatting are
caught inside the call (the placeholder branches of `shapeEntry`,
`consoleTail` and `synthDetails`), so no exception reaches the caller. -/
theorem emit_never_throws (sink : SinkRecord → Except Unit Unit)
    (spanCtx : Option SpanContext) (dk ib : Bool) (ts level msg : String)
    (d : Option Data) (hsink : ∀ r, sink r = Except.ok ()) :
    (emit sink spanCtx dk ib ts level msg d).isOk = true := by
  simp [emit, hsink, Except.isOk, Except.toBool]

/-- Witness for C1 at a concrete cyclic (unserializable) data object. -/
theorem emit_never_throws_witness :
    (emit (fun _ => Except.ok ()) none false false "2024-01-01T00:00:00.000Z"
      "error" "boom" (some [("self", JSValue.obj false "")])).isOk = true :=
  emit_never_throws _ _ _ _ _ _ _ _ (fun _ => rfl)

/-- C2: the severity mapping of the sink record is total on the level
enumeration: ERROR for error, WARN for warn, INFO for info and delivered,
DEBUG for debug and blocked, and INFO for every string outside the
enumeration. -/
theorem severity_mapping_total :
    severityNumber "error" = SeverityNumber.ERROR ∧
    severityNumber "warn" = SeverityNumber.WARN ∧
    severityNumber "info" = SeverityNumber.INFO ∧
    severityNumber "delivered" = SeverityNumber.INFO ∧
    severityNumber "debug" = SeverityNumber.DEBUG ∧
    severityNumber "blocked" = SeverityNumber.DEBUG ∧
    ∀ level : String,
      level ∉ (["error", "warn", "info", "delivered", "debug", "blocked"] : List String) →
      severityNumber level = SeverityNumber.INFO := by
  refine ⟨rfl, rfl, rfl, rfl, rfl, rfl, ?_⟩
  intro level h
  simp only [List.mem_cons, List.not_mem_nil, or_false, not_or] at h
  obtain ⟨h1, h2, h3, h4, h5, h6⟩ := h
  simp [severityNumber, h1, h2, h3, h4, h5, h6]

/-- Witness for C2 at a string outside the enumeration. -/
theorem severity_mapping_total_witness :
    severityNumber "fatal" = SeverityNumber.INFO :=
  severity_mapping_total.2.2.2.2.2.2 "fatal" (by decide)

/-- Helper: every call writes at least one console line (the level switch
has a write in every branch). -/
theorem emitOutput_console_ne_nil (spanCtx : Option SpanContext) (dk ib : Bool)
    (ts level msg : String) (d : Option Data) :
    (emitOutput spanCtx dk ib ts level msg d).consoleWrites ≠ [] := by
  unfold emitOutput
  repeat' split
  all_goals simp

/-- C6 counterexample: with a sink whose emit operation throws, the whole
`logger.text` call propagates the exception — the console mirror never
runs and the failure is surfaced to the caller, contradicting the claimed
fire-and-forget recovery. -/
theorem emit_sink_throw_cex :
    emit (fun _ => Except.error ()) none false false "T" "info" "hello" none =
      Except.error () := rfl

/-- C6 (amended): the hand-off to the sink is not guarded.  When the sink
completes normally — including the no-op logger that stands in for an
absent sink — the call returns all its observable output, among it at
least one console write, and no failure; when the sink throws, the
exception propagates and the console mirror does not execute. -/
theorem emit_sink_unguarded (spanCtx : Option SpanContext) (dk ib : Bool)
    (ts level msg : String) (d : Option Data) :
    (∀ sink : SinkRecord → Except Unit Unit, (∀ r, sink r = Except.ok ()) →
      emit sink spanCtx dk ib ts level msg d =
        Except.ok (emitOutput spanCtx dk ib ts level msg d) ∧
      (emitOutput spanCtx dk ib ts level msg d).consoleWrites ≠ []) ∧
    emit (fun _ => Except.error ()) spanCtx dk ib ts level msg d =
      Except.error () := by
  refine ⟨fun sink hsink => ⟨?_, emitOutput_console_ne_nil _ _ _ _ _ _ _⟩, rfl⟩
  simp [emit, hsink]

/-- Witness for C6 (amended) at a concrete benign sink. -/
theorem emit_sink_unguarded_witness :
    emit (fun _ => Except.ok ()) none false false "T" "info" "m" none =
      Except.ok (emitOutput none false false "T" "info" "m" none) :=
  ((emit_sink_unguarded none false false "T" "info" "m" none).1
    (fun _ => Except.ok ()) (fun _ => rfl)).1

/-- C9 counterexample: an error-level call with no Datadog API key in a
browser writes to two console channels — the error channel and, for the
simulation notice, the log channel — contradicting "exactly one channel
per emit call". -/
theorem console_double_write_cex :
    (emitOutput none false true "T" "error" "m" none).consoleWrites.map Prod.fst =
      [Channel.error, Channel.log] ∧ Channel.error ≠ Channel.log :=
  ⟨rfl, by decide⟩

/-- C9 (amended): the formatted message goes to exactly one channel chosen
by level family (error to error, warn to warn, info and delivered to info,
debug and blocked to debug, anything outside the enumeration to the log
channel); additionally, an error-level call with the Datadog key unset in
a browser appends one fixed simulation notice on the log channel, so
exactly such calls produce a second console write. -/
theorem console_routing (spanCtx : Option SpanContext) (dk ib : Bool)
    (ts msg : String) (d : Option Data) :
    ∀ level : String,
      (level = "error" →
        (emitOutput spanCtx dk ib ts level msg d).consoleWrites.map Prod.fst =
          Channel.error :: (if !dk && ib then [Channel.log] else [])) ∧
      (level = "warn" →
        (emitOutput spanCtx dk ib ts level msg d).consoleWrites.map Prod.fst =
          [Channel.warn]) ∧
      ((level = "info" ∨ level = "delivered") →
        (emitOutput spanCtx dk ib ts level msg d).consoleWrites.map Prod.fst =
          [Channel.info]) ∧
      ((level = "debug" ∨ level = "blocked") →
        (emitOutput spanCtx dk ib ts level msg d).consoleWrites.map Prod.fst =
          [Channel.debug]) ∧
      (level ∉ (["error", "warn", "info", "delivered", "debug", "blocked"] : List String) →
        (emitOutput spanCtx dk ib ts level msg d).consoleWrites.map Prod.fst =
          [Channel.log]) := by
  intro level
  refine ⟨?_, ?_, ?_, ?_, ?_⟩
  · rintro rfl
    by_cases hdb : (!dk && ib) = true
    · simp [emitOutput, hdb]
    · simp [emitOutput, hdb]
  · rintro rfl
    simp [emitOutput]
  · rintro (rfl | rfl) <;> simp [emitOutput]
  · rintro (rfl | rfl) <;> simp [emitOutput]
  · intro h
    simp only [List.mem_cons, List.not_mem_nil, or_false, not_or] at h
    obtain ⟨h1, h2, h3, h4, h5, h6⟩ := h
    simp [emitOutput, h1, h2, h3, h4, h5, h6]

/-- Witness for C9 (amended) at a concrete warn-level call. -/
theorem console_routing_witness :
    (emitOutput none true false "T" "warn" "m" none).consoleWrites.map Prod.fst =
      [Channel.warn] :=
  (console_routing none true false "T" "m" none "warn").2.1 rfl

/-- C10: the emitter-injected attributes win over caller data: `log.level`
of the sink record equals the level argument, and under an active span
with a truthy, non-all-zero trace id the `trace_id` and `span_id`
attributes equal the ambient span context's identifiers — for every data
argument, including one that binds those very keys — because the injected
attributes are assigned after the data-derived ones. -/
theorem injected_attributes_precedence (spanCtx : Option SpanContext)
    (ts level msg : String) (d : Option Data) :
    lookupA (sinkRecordOf spanCtx ts level msg d).attributes "log.level" =
      some level ∧
    ∀ sc : SpanContext, spanCtx = some sc → sc.traceId ≠ "" →
      sc.traceId ≠ zeroTraceId →
      lookupA (sinkRecordOf spanCtx ts level msg d).attributes "trace_id" =
        some sc.traceId ∧
      lookupA (sinkRecordOf spanCtx ts level msg d).attributes "span_id" =
        some sc.spanId := by
  constructor
  · simp [sinkRecordOf, logAttributesOf, lookupA_setA_self]
  · intro sc hsc h1 h2
    subst hsc
    have hcond : (sc.traceId != "" && sc.traceId != zeroTraceId) = true := by
      simp [h1, h2]
    constructor
    · simp only [sinkRecordOf, logAttributesOf, injectCorrelation, hcond, if_true]
      rw [lookupA_setA_ne _ _ _ _ (by decide), lookupA_setA_ne _ _ _ _ (by decide),
        lookupA_setA_self]
    · simp only [sinkRecordOf, logAttributesOf, injectCorrelation, hcond, if_true]
      rw [lookupA_setA_ne _ _ _ _ (by decide), lookupA_setA_self]

/-- Witness for C10: the data argument binds `log.level`, `trace_id` and
`span_id` itself, and the injected values still win. -/
theorem injected_attributes_precedence_witness :
    lookupA (sinkRecordOf (some ⟨"abc123", "def456"⟩) "T" "error" "m"
      (some [("log.level", JSValue.str "fake"), ("trace_id", JSValue.str "fake"),
        ("span_id", JSValue.str "fake")])).attributes "log.level" = some "error" ∧
    lookupA (sinkRecordOf (some ⟨"abc123", "def456"⟩) "T" "error" "m"
      (some [("log.level", JSValue.str "fake"), ("trace_id", JSValue.str "fake"),
        ("span_id", JSValue.str "fake")])).attributes "trace_id" = some "abc123" ∧
    lookupA (sinkRecordOf (some ⟨"abc123", "def456"⟩) "T" "error" "m"
      (some [("log.level", JSValue.str "fake"), ("trace_id", JSValue.str "fake"),
        ("span_id", JSValue.str "fake")])).attributes "span_id" = some "def456" := by
  have h := injected_attributes_precedence (some ⟨"abc123", "def456"⟩) "T" "error" "m"
    (some [("log.level", JSValue.str "fake"), ("trace_id", JSValue.str "fake"),
      ("span_id", JSValue.str "fake")])
  have h2 := h.2 ⟨"abc123", "def456"⟩ rfl (by decide) (by decide)
  exact ⟨h.1, h2.1, h2.2⟩

/-- Concatenating distinct suffixes to the same string yields distinct
strings (the `log.data.` prefix keeps distinct data keys distinct). -/
theorem string_append_ne (p a b : String) (h : a ≠ b) : p ++ a ≠ p ++ b := by
  intro hab
  apply h
  have hd := String.ext_iff.mp hab
  rw [String.data_append, String.data_append] at hd
  exact String.ext (List.append_cancel_left hd)

/-- Entries whose key differs from `k` never touch the `log.data.<k>`
attribute while the exception-attribute loop runs. -/
theorem lookup_excStep_fold_stable (l : Data) (acc : AttrMap) (k : String)
    (h : ∀ p ∈ l, p.1 ≠ k) :
    lookupA (l.foldl excStep acc) ("log.data." ++ k) =
      lookupA acc ("log.data." ++ k) := by
  induction l generalizing acc with
  | nil => rfl
  | cons p l' ih =>
    obtain ⟨a, b⟩ := p
    have ha : a ≠ k := h (a, b) (List.mem_cons_self _ _)
    have hstep :
        lookupA (excStep acc (a, b)) ("log.data." ++ k) =
          lookupA acc ("log.data." ++ k) := by
      unfold excStep
      split
      · exact lookupA_setA_ne _ _ _ _ (Ne.symm (string_append_ne "log.data." a k ha))
      · rfl
    rw [List.foldl_cons, ih _ (fun q hq => h q (List.mem_cons_of_mem _ hq)), hstep]

/-- When the data keys are distinct, an entry that the exception-attribute
loop keeps is found under its prefixed key with its stringified value. -/
theorem lookup_exceptionAttrs (l : Data) (k : String) (v : JSValue)
    (hnd : (l.map Prod.fst).Nodup) (hmem : (k, v) ∈ l) (hk : k ≠ "error")
    (hv : isErrV v = false) :
    lookupA (l.foldl excStep []) ("log.data." ++ k) = some (toStr v) := by
  suffices hgen : ∀ acc : AttrMap,
      (l.map Prod.fst).Nodup → (k, v) ∈ l →
      lookupA (l.foldl excStep acc) ("log.data." ++ k) = some (toStr v) from
    hgen [] hnd hmem
  clear hnd hmem
  induction l with
  | nil => intro _ _ hmem; cases hmem
  | cons p l' ih =>
    intro acc hnd hmem
    obtain ⟨a, b⟩ := p
    rw [List.map_cons, List.nodup_cons] at hnd
    rcases List.mem_cons.mp hmem with heq | hmem'
    · injection heq with h1 h2
      subst h1; subst h2
      have hstep : excStep acc (k, v) = setA acc ("log.data." ++ k) (toStr v) := by
        unfold excStep
        simp [hk, hv]
      have hst : ∀ q ∈ l', q.1 ≠ k := by
        intro q hq hqe
        apply hnd.1
        rw [← hqe]
        exact List.mem_map.mpr ⟨q, hq, rfl⟩
      rw [List.foldl_cons, hstep, lookup_excStep_fold_stable l' _ k hst,
        lookupA_setA_self]
    · rw [List.foldl_cons]
      exact ih _ hnd.2 hmem'

/-- An `Error` instance under the `error` key is what the reuse guard
finds. -/
theorem errorOfData_eq_some (l : Data) (em : String) (st : Option String)
    (h : lookupD l "error" = some (JSValue.err em st)) :
    errorOfData (some l) = some (em, st) := by
  simp only [errorOfData, h]

/-- Without an `Error` instance under the `error` key the reuse guard
finds nothing. -/
theorem errorOfData_eq_none (l : Data)
    (h : ∀ em st, lookupD l "error" ≠ some (JSValue.err em st)) :
    errorOfData (some l) = none := by
  simp only [errorOfData]

/-- C7 counterexample: an error-level call with a span active and an
error-like value in data under the key `boom` (not `error`) does not reuse
that error: the recorded exception's message is the log message
"Payment failed", not the caller error's "timeout" — the reuse only
happens for the key `error`. -/
theorem error_exception_reuse_cex :
    (emitOutput (some ⟨"abc123", "span1"⟩) true false "T" "error" "Payment failed"
        (some [("boom", JSValue.err "timeout" none), ("userId", JSValue.num 42)])
      ).exceptionRecorded.map RecordedException.excMessage =
      some "Payment failed" ∧
    "Payment failed" ≠ "timeout" :=
  ⟨rfl, by decide⟩

/-- C7 (amended): at error level with a span active, the span status is
set to ERROR with the concise message; the recorded exception reuses the
value under data's `error` key exactly when that value is an Error
instance, and otherwise is synthesized from the message (with stringified
data attached as details); the entries whose key is not `error` and whose
value is not error-like are attached as exception attributes under keys
prefixed `log.data.`. -/
theorem error_span_effects (sc : SpanContext) (dk ib : Bool) (ts msg : String)
    (d : Option Data) :
    (emitOutput (some sc) dk ib ts "error" msg d).statusSet =
      some { code := SpanStatusCode.ERROR, message := msg } ∧
    (emitOutput (some sc) dk ib ts "error" msg d).exceptionRecorded =
      some (exceptionFor msg d) ∧
    (∀ l em st, d = some l → lookupD l "error" = some (JSValue.err em st) →
      exceptionFor msg d =
        { excMessage := em, excStack := st, details := none,
          excAttrs := exceptionAttrsOf d }) ∧
    (∀ l, d = some l → (∀ em st, lookupD l "error" ≠ some (JSValue.err em st)) →
      (exceptionFor msg d).excMessage = msg ∧
      (exceptionFor msg d).details = synthDetails d) ∧
    (exceptionFor msg d).excAttrs = exceptionAttrsOf d ∧
    (∀ l k v, d = some l → (l.map Prod.fst).Nodup → (k, v) ∈ l →
      k ≠ "error" → isErrV v = false →
      lookupA (exceptionFor msg d).excAttrs ("log.data." ++ k) =
        some (toStr v)) := by
  have hattrs : (exceptionFor msg d).excAttrs = exceptionAttrsOf d := by
    unfold exceptionFor
    cases herr : errorOfData d with
    | none => rfl
    | some p => obtain ⟨em, st⟩ := p; rfl
  refine ⟨?_, ?_, ?_, ?_, hattrs, ?_⟩
  · unfold emitOutput
    repeat' split
    all_goals simp_all
  · unfold emitOutput
    repeat' split
    all_goals simp_all
  · intro l em st hd hlk
    subst hd
    unfold exceptionFor
    rw [errorOfData_eq_some l em st hlk]
  · intro l hd hne
    subst hd
    unfold exceptionFor
    rw [errorOfData_eq_none l hne]
    exact ⟨rfl, rfl⟩
  · intro l k v hd hnd hmem hk hv
    subst hd
    rw [hattrs]
    exact lookup_exceptionAttrs l k v hnd hmem hk hv

/-- Witness for C7 (amended): a caller error under the `error` key is
reused verbatim, and a sibling entry appears under its prefixed key. -/
theorem error_span_effects_witness :
    exceptionFor "Payment failed"
        (some [("error", JSValue.err "timeout" (some "TRACE")),
          ("userId", JSValue.num 42)]) =
      { excMessage := "timeout", excStack := some "TRACE", details := none,
        excAttrs := exceptionAttrsOf
          (some [("error", JSValue.err "timeout" (some "TRACE")),
            ("userId", JSValue.num 42)]) } ∧
    lookupA (exceptionFor "Payment failed"
        (some [("error", JSValue.err "timeout" (some "TRACE")),
          ("userId", JSValue.num 42)])).excAttrs
      ("log.data." ++ "userId") = some "42" := by
  have h := error_span_effects ⟨"t", "s"⟩ false false "T" "Payment failed"
    (some [("error", JSValue.err "timeout" (some "TRACE")),
      ("userId", JSValue.num 42)])
  refine ⟨h.2.2.1 _ "timeout" (some "TRACE") rfl rfl, ?_⟩
  exact h.2.2.2.2.2 [("error", JSValue.err "timeout" (some "TRACE")),
      ("userId", JSValue.num 42)] "userId" (JSValue.num 42) rfl (by decide)
    (by decide) (by decide) (by decide)

/-- C8 counterexample: the current emitter, shaping a data entry holding
an error-like value (message "boom", stack "TRACE") under the key `e`,
produces no `error.message` attribute at all; the error contributes only
its stack under the original key. -/
theorem shape_error_attrs_cex :
    lookupA (sinkRecordOf none "T" "error" "m"
        (some [("e", JSValue.err "boom" (some "TRACE"))])).attributes
      "error.message" = none ∧
    lookupA (sinkRecordOf none "T" "error" "m"
        (some [("e", JSValue.err "boom" (some "TRACE"))])).attributes
      "e" = some "TRACE" :=
  ⟨rfl, rfl⟩

/-- C8 (amended): the current emitter (src/src/lib/logger.ts) records, for
an error-like data value, its stack when present and otherwise its message
under the entry's original key only, adding no `error.message` or
`error.stack` attributes; the claimed shape — `error.message` and
`error.stack` as separate attributes plus a stringified `Error: <message>`
under the original key — is the behavior of the superseded revision
(src/unnamed/part_007). -/
theorem shape_error_attrs_amended (m : AttrMap) (k em : String)
    (st : Option String) :
    lookupA (shapeEntry m k (JSValue.err em st)) k = some (stackOrMsg em st) ∧
    (k ≠ "error.message" → lookupA m "error.message" = none →
      lookupA (shapeEntry m k (JSValue.err em st)) "error.message" = none) ∧
    (k ≠ "error.message" → k ≠ "error.stack" →
      lookupA (shapeEntryV7 m k (JSValue.err em st)) "error.message" = some em ∧
      lookupA (shapeEntryV7 m k (JSValue.err em st)) k = some ("Error: " ++ em) ∧
      ∀ s, st = some s →
        lookupA (shapeEntryV7 m k (JSValue.err em st)) "error.stack" = some s) := by
  refine ⟨?_, ?_, ?_⟩
  · unfold shapeEntry
    exact lookupA_setA_self m k (stackOrMsg em st)
  · intro hk hm
    unfold shapeEntry
    rw [lookupA_setA_ne _ _ _ _ (Ne.symm hk), hm]
  · intro hk1 hk2
    unfold shapeEntryV7
    refine ⟨?_, ?_, ?_⟩
    · rw [lookupA_setA_ne _ _ _ _ (Ne.symm hk1),
        lookupA_setA_ne _ _ _ _ (by decide), lookupA_setA_self]
    · exact lookupA_setA_self _ k ("Error: " ++ em)
    · intro s hs
      subst hs
      rw [lookupA_setA_ne _ _ _ _ (Ne.symm hk2), lookupA_setA_self]

/-- Witness for C8 (amended) at a concrete error-like value. -/
theorem shape_error_attrs_amended_witness :
    lookupA (shapeEntryV7 [] "e" (JSValue.err "boom" (some "TRACE")))
      "error.message" = some "boom" ∧
    lookupA (shapeEntry [] "e" (JSValue.err "boom" (some "TRACE")))
      "e" = some (stackOrMsg "boom" (some "TRACE")) := by
  have h := shape_error_attrs_amended [] "e" "boom" (some "TRACE")
  exact ⟨(h.2.2 (by decide) (by decide)).1, h.1⟩

/-- A non-empty search term stays non-empty after lowercasing, so the
code's emptiness test on the lowered term agrees with the spec's test on
the term itself. -/
theorem lowerStr_beq_empty (t : String) (h : t ≠ "") :
    (lowerStr t == "") = false := by
  refine beq_eq_false_iff_ne.mpr ?_
  intro hh
  exact h ((lowerStr_eq_empty_iff t).mp hh)

/-- The inline predicate of the source equals the spec's wording of the
filter condition (the conjunct order is swapped and the source's JS
falsiness test on an empty source string is absorbed: an empty string
cannot contain a non-empty term). -/
theorem logPasses_eq_spec (log : LogEntry) (term : String)
    (allowed : List Level) :
    logPasses log term allowed = specFilterPass log term allowed := by
  by_cases ht : term = ""
  · subst ht
    simp only [logPasses, specFilterPass]
    have h1 : (lowerStr "" == "") = true := rfl
    simp [h1, Bool.and_comm]
  · have h1 : (lowerStr term == "") = false := lowerStr_beq_empty term ht
    have h2 : (term == "") = false := beq_eq_false_iff_ne.mpr ht
    have h3 : (match log.source with
        | some s => s != "" && ciIncludes s term
        | none => false) =
        (match log.source with
        | some s => ciIncludes s term
        | none => false) := by
      cases hs : log.source with
      | none => rfl
      | some s =>
        by_cases hse : s = ""
        · subst hse
          simp [ciIncludes_empty_left term ht]
        · simp [hse]
    simp only [logPasses, specFilterPass, h1, h2, h3, Bool.false_or]
    exact Bool.and_comm _ _

/-- Every level is in the all-levels set. -/
theorem contains_allLevels (lv : Level) : allLevels.contains lv = true := by
  cases lv <;> rfl

/-- C3: the filter returns exactly the records, in input order, whose
level is in the allowed set and which match the search term (empty term,
or case-insensitive containment in the message or in the present source);
an empty allowed set yields the empty result, and an empty term with all
levels allowed returns the input unchanged. -/
theorem filter_semantics (logs : List LogEntry) (term : String)
    (allowed : List Level) :
    filteredLogs logs term allowed =
      logs.filter (fun log => specFilterPass log term allowed) ∧
    filteredLogs logs term [] = [] ∧
    filteredLogs logs "" allLevels = logs := by
  refine ⟨?_, ?_, ?_⟩
  · exact List.filter_congr (fun log _ => logPasses_eq_spec log term allowed)
  · have hfalse : ∀ log : LogEntry, logPasses log term [] = false := by
      intro log
      simp [logPasses]
    simp [filteredLogs, hfalse]
  · refine List.filter_eq_self.mpr ?_
    intro log _
    have h1 : (lowerStr "" == "") = true := rfl
    simp [logPasses, h1, contains_allLevels]
    cases log.level <;> decide

/-- C4 counterexample: a record whose timestamp lies in the future
relative to `now` is counted by the source (its age is negative, hence
below any positive window), while the claim's closed-interval reading
counts nothing at this input. -/
theorem countRecent_future_cex :
    countRecent
      [{ id := "f1", timestamp := 1700000000000 + 1000, message := "future",
         source := none, level := Level.error }]
      Level.error 86400000 1700000000000 = 1 ∧
    specCountRecent
      [{ id := "f1", timestamp := 1700000000000 + 1000, message := "future",
         source := none, level := Level.error }]
      Level.error 86400000 1700000000000 = 0 := by
  constructor <;> decide

/-- C4 (amended): the source counts the records of the given level whose
age `now - timestamp` is strictly below the window, i.e. whose timestamp
lies strictly beyond `now - window` with no upper bound: the left boundary
itself is excluded, future timestamps are counted, and a zero or negative
window counts exactly the records beyond `now - window` (none, unless some
timestamp lies in the future).  The spec's three-record example (now,
now-1h, now-30h, 24h window) still yields 2. -/
theorem countRecent_amended :
    (∀ (records : List LogEntry) (level : Level) (w now : Int),
      countRecent records level w now =
        (records.filter
          (fun log => log.level == level && now - w < log.timestamp)).length) ∧
    countRecent
      [ { id := "a", timestamp := 1700000000000, message := "m1",
          source := none, level := Level.error },
        { id := "b", timestamp := 1700000000000 - 3600000, message := "m2",
          source := none, level := Level.error },
        { id := "c", timestamp := 1700000000000 - 108000000, message := "m3",
          source := none, level := Level.error } ]
      Level.error 86400000 1700000000000 = 2 := by
  constructor
  · intro records level w now
    unfold countRecent
    congr 1
    refine List.filter_congr ?_
    intro log _
    have harith : (decide (now - log.timestamp < w)) =
        (decide (now - w < log.timestamp)) :=
      decide_eq_decide.mpr (by omega)
    rw [harith]
  · decide

/-- C5: acknowledging returns a collection that relates entrywise to the
input: the entries whose id matches get `acknowledged` set true with every
other field unchanged, the rest are returned unchanged, and an id that
matches nothing returns the input collection itself.  The source builds a
fresh array with `map` and a fresh object with spread syntax, which the
pure embedding reflects: the input collection is a value and is never
modified, so a caller's original entry keeps `acknowledged = false`. -/
theorem acknowledge_semantics (alerts : List Alert) (alertId : String) :
    List.Forall₂
      (fun a b =>
        b.id = a.id ∧ b.timestamp = a.timestamp ∧ b.severity = a.severity ∧
        b.title = a.title ∧ b.description = a.description ∧
        b.source = a.source ∧ b.relatedLogsQuery = a.relatedLogsQuery ∧
        b.acknowledged = (if a.id = alertId then true else a.acknowledged))
      alerts (acknowledgeAlerts alerts alertId) ∧
    ((∀ a ∈ alerts, a.id ≠ alertId) → acknowledgeAlerts alerts alertId = alerts) := by
  constructor
  · induction alerts with
    | nil => exact List.Forall₂.nil
    | cons a l ih =>
      simp only [acknowledgeAlerts, List.map_cons]
      refine List.Forall₂.cons ?_ ?_
      · by_cases h : a.id = alertId <;> simp [h]
      · exact ih
  · induction alerts with
    | nil => intro _; rfl
    | cons a l ih =>
      intro hno
      have ha : (a.id == alertId) = false := by
        simp [hno a (List.mem_cons_self a l)]
      have ihl := ih (fun x hx => hno x (List.mem_cons_of_mem a hx))
      simp only [acknowledgeAlerts, List.map_cons] at ihl ⊢
      rw [ha]
      simp only [Bool.false_eq_true, if_false]
      rw [ihl]

/-- Witness for C5: acknowledging an id that is absent leaves a concrete
collection untouched. -/
theorem acknowledge_semantics_witness :
    acknowledgeAlerts
      [{ id := "a1", timestamp := 0, severity := "critical", title := "t",
         description := "d", source := "s", acknowledged := false,
         relatedLogsQuery := none }] "zz" =
      [{ id := "a1", timestamp := 0, severity := "critical", title := "t",
         description := "d", source := "s", acknowledged := false,
         relatedLogsQuery := none }] :=
  (acknowledge_semantics
    [{ id := "a1", timestamp := 0, severity := "critical", title := "t",
       description := "d", source := "s", acknowledged := false,
       relatedLogsQuery := none }] "zz").2 (by decide)
